import Mathlib

/-!
Verification of the AgriInfo offline synchronization core.

This file gives a shallow embedding, in Lean 4, of the sync-queue /
sync-coordinator code of the repository (the `AgriSync` class, source file
`src/unnamed/part_001`, together with the generic IndexedDB record-store
wrapper of `src/unnamed/part_002` / `src/js/db.js`), of the background-sync
helpers of the service worker (`src/unnamed/part_003`), and of the response
cache strategies (`src/unnamed/part_003` and `src/service-worker.js`).

Stateful JavaScript is modelled by explicit state passing: the persisted
`syncQueue` IndexedDB collection is a `List QueueItem` keyed by `id`, the
in-memory `this.syncQueue` array is a second `List QueueItem`, and the
simulated remote endpoint (`sendToServer` / `syncToServer`, a randomized
mock in the source) is an explicit oracle `send : QueueItem → Except String
Unit` whose `error` value is the rejected `Error`'s `message` string.
Timestamps (`new Date().toISOString()` / `Date.now()`) are modelled as a
`Nat` clock value passed in by the caller.
-/

/-- One entry of the `syncQueue` collection, per the source's enqueue shape
(`src/unnamed/part_001`, `addToQueue`): the spread `...data` payload is
summarized by the `type` and `payload` fields, and the generated fields are
`id`, `timestamp`, `status := "pending"`, `attempts := 0`.  The bookkeeping
fields `lastError`, `lastAttempt`, `syncedAt` start absent (`Option`). -/
structure QueueItem where
  id : String
  type : String
  payload : String
  timestamp : Nat
  status : String
  attempts : Nat
  lastError : Option String
  lastAttempt : Option Nat
  syncedAt : Option Nat
deriving Repr, DecidableEq

/-- A partial-fields update as passed to `updateQueueItem(itemId, updates)`:
each field that is `some` is assigned by `Object.assign`, each `none` field
is left untouched.  Only the fields the source ever patches are present. -/
structure ItemPatch where
  status : Option String := none
  attempts : Option Nat := none
  lastError : Option String := none
  lastAttempt : Option Nat := none
  syncedAt : Option Nat := none
deriving Repr, DecidableEq

/-- `Object.assign` on one optional field: a provided patch value replaces
the stored one, an absent patch value keeps it. -/
def setOpt {α : Type} (old patch : Option α) : Option α :=
  match patch with
  | some v => some v
  | none => old

/-- `Object.assign(item, updates)` restricted to the fields of `ItemPatch`. -/
def applyPatch (it : QueueItem) (p : ItemPatch) : QueueItem :=
  { it with
    status := match p.status with | some s => s | none => it.status
    attempts := match p.attempts with | some a => a | none => it.attempts
    lastError := setOpt it.lastError p.lastError
    lastAttempt := setOpt it.lastAttempt p.lastAttempt
    syncedAt := setOpt it.syncedAt p.syncedAt }

/-- `agriDB.getItem('syncQueue', key)` (`src/unnamed/part_002`, `getItem`):
an IndexedDB `store.get(key)`, i.e. lookup by primary key `id`. -/
def getItem (store : List QueueItem) (id : String) : Option QueueItem :=
  store.find? (fun it => it.id == id)

/-- `agriDB.updateItem('syncQueue', item)` (`src/unnamed/part_002`,
`updateItem`): an IndexedDB `store.put(item)`, which upserts by primary key
(replaces the record with the same `id`, else appends). -/
def putItem (store : List QueueItem) (item : QueueItem) : List QueueItem :=
  if store.any (fun it => it.id == item.id) then
    store.map (fun it => if it.id == item.id then item else it)
  else
    store ++ [item]

/-- `agriDB.addItem('syncQueue', item)` (`src/unnamed/part_002`, `addItem`):
an IndexedDB `store.add(item)`, which rejects on a primary-key collision. -/
def addItem (store : List QueueItem) (item : QueueItem) :
    Except String (List QueueItem) :=
  if store.any (fun it => it.id == item.id) then
    Except.error "DuplicateKeyError"
  else
    Except.ok (store ++ [item])

/-- `agriDB.deleteItem('syncQueue', key)` (`src/unnamed/part_002`,
`deleteItem`): an IndexedDB `store.delete(key)`. -/
def deleteItem (store : List QueueItem) (id : String) : List QueueItem :=
  store.filter (fun it => !(it.id == id))

/-- `this.maxRetries = 3` (`src/unnamed/part_001`, constructor). -/
def maxRetries : Nat := 3

/-- `this.retryDelay = 5000` milliseconds (`src/unnamed/part_001`,
constructor), the fixed backoff before `scheduleRetry` re-runs the drain. -/
def retryDelay : Nat := 5000

/-- Character-list test used to model `String.prototype.includes`:
does the second list start with the first? -/
def hasPrefixChars : List Char → List Char → Bool
  | _, [] => true
  | [], _ :: _ => false
  | c :: cs, p :: ps => c == p && hasPrefixChars cs ps

/-- Does `pat` occur as a contiguous sublist of the given character list? -/
def hasSubstrChars (pat : List Char) : List Char → Bool
  | [] => hasPrefixChars [] pat
  | c :: cs => hasPrefixChars (c :: cs) pat || hasSubstrChars pat cs

/-- JavaScript `s.includes(pat)`: substring occurrence. -/
def includes (s pat : String) : Bool :=
  hasSubstrChars pat.data s.data

/-- The fail-fast test of `processQueue` (`src/unnamed/part_001`, lines
148-152): `error.message.includes('Network') ||
error.message.includes('Failed to fetch')`. -/
def isNetworkError (msg : String) : Bool :=
  includes msg "Network" || includes msg "Failed to fetch"

/-- The store effect of `updateQueueItem(itemId, updates)`
(`src/unnamed/part_001`, lines 78-88): `getItem`; if a record is present,
`Object.assign` the updates into it and `put` it back; if absent, do
nothing. -/
def updateStore (store : List QueueItem) (id : String) (p : ItemPatch) :
    List QueueItem :=
  match getItem store id with
  | some it => putItem store (applyPatch it p)
  | none => store

/-- `updateQueueItem(itemId, updates)` (`src/unnamed/part_001`, lines
78-88).  The whole body is wrapped in `try { ... } catch (error) {
console.error(...) }`, so the returned promise always resolves: the
function never signals an error to its caller, in particular a missing
`itemId` is a silent no-op (the `if (item)` guard), not a NotFoundError. -/
def updateQueueItem (store : List QueueItem) (id : String) (p : ItemPatch) :
    Except String (List QueueItem) :=
  Except.ok (updateStore store id p)

/-- `saveQueueItem(item)` (`src/unnamed/part_001`, lines 70-76):
`agriDB.addItem` wrapped in `try { ... } catch (error) {
console.error(...) }` — a storage rejection (modelled by the injected
`storageFail` flag) or a duplicate-key rejection is logged and swallowed,
leaving the store unchanged, and the promise resolves either way. -/
def saveQueueItem (storageFail : Bool) (store : List QueueItem)
    (item : QueueItem) : List QueueItem :=
  if storageFail then
    store
  else
    match addItem store item with
    | Except.ok s => s
    | Except.error _ => store

/-- The result of `addToQueue`: the new in-memory queue, the new persisted
store, and the returned id. -/
structure EnqueueOutcome where
  queue : List QueueItem
  store : List QueueItem
  retId : String
deriving Repr, DecidableEq

/-- `addToQueue(data)` (`src/unnamed/part_001`, lines 48-68): build the
queue item with a fresh `id` (modelled as the `freshId` argument; the
source concatenates time and randomness), `timestamp := now`,
`status := 'pending'`, `attempts := 0`; push it onto the in-memory queue;
`await saveQueueItem(queueItem)`; return `queueItem.id`.  Because
`saveQueueItem` swallows every storage error, `addToQueue` always resolves
with the id, even when persistence failed.  The trailing fire-and-forget
`if (navigator.onLine) this.processQueue()` drain trigger is modelled
separately by `processQueue`. -/
def addToQueue (storageFail : Bool) (freshId : String) (now : Nat)
    (q store : List QueueItem) (tp payload : String) :
    Except String EnqueueOutcome :=
  let queueItem : QueueItem :=
    { id := freshId, type := tp, payload := payload, timestamp := now,
      status := "pending", attempts := 0,
      lastError := none, lastAttempt := none, syncedAt := none }
  Except.ok
    { queue := q ++ [queueItem]
      store := saveQueueItem storageFail store queueItem
      retId := freshId }

/-- `{ attempts: n }` update object. -/
def attemptsPatch (n : Nat) : ItemPatch := { attempts := some n }

/-- `{ status: 'synced', syncedAt: now }` update object. -/
def syncedPatch (now : Nat) : ItemPatch :=
  { status := some "synced", syncedAt := some now }

/-- `{ lastError: msg, lastAttempt: now }` update object. -/
def errorPatch (msg : String) (now : Nat) : ItemPatch :=
  { lastError := some msg, lastAttempt := some now }

/-- `item.attempts = (item.attempts || 0) + 1` on the in-memory item. -/
def bumpAttempts (item : QueueItem) : QueueItem :=
  { item with attempts := item.attempts + 1 }

/-- Result of the `for (const item of this.syncQueue)` loop of
`processQueue`: the persisted store after all bookkeeping writes, the
in-memory array contents after the loop (each element possibly with its
`attempts` mutated in place; elements after a `break` untouched), the
`successItems` id list, the `failedItems` report (`{...item, error}`
modelled as an item/message pair), and whether the loop exited through the
fail-fast `break`. -/
structure LoopResult where
  store : List QueueItem
  items : List QueueItem
  successItems : List String
  failedItems : List (QueueItem × String)
  failFast : Bool
deriving Repr, DecidableEq

/-- The body of the `processQueue` loop (`src/unnamed/part_001`, lines
111-157), one queue item at a time, threading the persisted store:
if `item.attempts >= maxRetries`, record `{...item, error: 'Max retries
exceeded'}` in the failed report and `continue` (no delivery attempt, no
increment, no status change); otherwise increment `attempts` in memory,
persist the increment, and attempt delivery.  Success records the id and
persists `status: 'synced'`; failure persists `lastError`/`lastAttempt`,
records the failed item, and `break`s out of the loop exactly when
`isNetworkError` holds of the message. -/
def drainLoop (send : QueueItem → Except String Unit) (now : Nat) :
    List QueueItem → List QueueItem → LoopResult
  | [], store =>
    { store := store, items := [], successItems := [], failedItems := [],
      failFast := false }
  | item :: rest, store =>
    if maxRetries ≤ item.attempts then
      let r := drainLoop send now rest store
      { r with
        items := item :: r.items
        failedItems := (item, "Max retries exceeded") :: r.failedItems }
    else
      let item1 := bumpAttempts item
      let store1 := updateStore store item.id (attemptsPatch item1.attempts)
      match send item1 with
      | Except.ok _ =>
        let store2 := updateStore store1 item.id (syncedPatch now)
        let r := drainLoop send now rest store2
        { r with
          items := item1 :: r.items
          successItems := item.id :: r.successItems }
      | Except.error msg =>
        let store2 := updateStore store1 item.id (errorPatch msg now)
        if isNetworkError msg then
          { store := store2, items := item1 :: rest,
            successItems := [], failedItems := [(item1, msg)],
            failFast := true }
        else
          let r := drainLoop send now rest store2
          { r with
            items := item1 :: r.items
            failedItems := (item1, msg) :: r.failedItems }

/-- The mutable state of the `AgriSync` singleton together with the
persisted `syncQueue` collection and the `lastSync` setting. -/
structure SyncState where
  syncQueue : List QueueItem
  syncInProgress : Bool
  online : Bool
  store : List QueueItem
  lastSync : Option Nat
deriving Repr, DecidableEq

/-- The observable outcome of one `processQueue()` invocation: the final
state, the success/failed reports, whether the pass exited through the
fail-fast `break`, whether the success notification fired
(`successItems.length > 0`), and whether `scheduleRetry()` was invoked
(`failedItems.length > 0`). -/
structure DrainOutcome where
  state : SyncState
  successItems : List String
  failedItems : List (QueueItem × String)
  failFast : Bool
  notified : Bool
  retryScheduled : Bool
deriving Repr, DecidableEq

/-- `processQueue()` (`src/unnamed/part_001`, lines 99-187).  The guard
(line 100) returns immediately — touching nothing — when a drain is already
in flight, the in-memory queue is empty, or the browser is offline.
Otherwise the pass runs the loop, filters the successfully synced ids out
of the in-memory queue, clears `syncInProgress`, notifies on successes,
invokes `scheduleRetry()` whenever `failedItems` is non-empty (regardless
of how the loop exited), and unconditionally persists `lastSync := now`. -/
def processQueue (send : QueueItem → Except String Unit) (now : Nat)
    (st : SyncState) : DrainOutcome :=
  if st.syncInProgress || st.syncQueue.isEmpty || !st.online then
    { state := st, successItems := [], failedItems := [],
      failFast := false, notified := false, retryScheduled := false }
  else
    let r := drainLoop send now st.syncQueue st.store
    { state :=
        { syncQueue := r.items.filter (fun it => !(r.successItems.contains it.id))
          syncInProgress := false
          online := st.online
          store := r.store
          lastSync := some now }
      successItems := r.successItems
      failedItems := r.failedItems
      failFast := r.failFast
      notified := !r.successItems.isEmpty
      retryScheduled := !r.failedItems.isEmpty }

/-- The callback of `scheduleRetry()` (`src/unnamed/part_001`, lines
219-227): after the `retryDelay` backoff it re-runs `processQueue()`
provided the browser is online and the queue is non-empty. -/
def scheduleRetryFire (send : QueueItem → Except String Unit) (now : Nat)
    (st : SyncState) : DrainOutcome :=
  if st.online && !st.syncQueue.isEmpty then
    processQueue send now st
  else
    { state := st, successItems := [], failedItems := [],
      failFast := false, notified := false, retryScheduled := false }

/-- `markAsSynced(db, itemId)` (`src/unnamed/part_003`, lines 514-535):
get by key; if present set `status := 'synced'`, `syncedAt := now` and put
back; if absent resolve without change. -/
def markAsSynced (store : List QueueItem) (id : String) (now : Nat) :
    List QueueItem :=
  match getItem store id with
  | some item => putItem store { item with status := "synced", syncedAt := some now }
  | none => store

/-- `updateRetryCount(db, itemId)` (`src/unnamed/part_003`, lines 537-559):
get by key; if present set `attempts := (attempts || 0) + 1`,
`lastError := 'Background sync failed'`, `lastAttempt := now` and put back.
There is no `maxRetries` guard on this path. -/
def updateRetryCount (store : List QueueItem) (id : String) (now : Nat) :
    List QueueItem :=
  match getItem store id with
  | some item =>
    putItem store
      { item with
        attempts := item.attempts + 1
        lastError := some "Background sync failed"
        lastAttempt := some now }
  | none => store

/-- `getPendingSyncItems(db)` (`src/unnamed/part_003`, lines 502-512): all
records of `syncQueue` whose `status` index value is `'pending'`. -/
def getPendingSyncItems (store : List QueueItem) : List QueueItem :=
  store.filter (fun it => it.status == "pending")

/-- The per-item loop of `syncPendingData` (`src/unnamed/part_003`, lines
418-440): deliver each pending item; success runs `markAsSynced`, failure
runs `updateRetryCount`. -/
def bgSyncLoop (send : QueueItem → Except String Unit) (now : Nat) :
    List QueueItem → List QueueItem → List QueueItem
  | [], store => store
  | item :: rest, store =>
    match send item with
    | Except.ok _ => bgSyncLoop send now rest (markAsSynced store item.id now)
    | Except.error _ => bgSyncLoop send now rest (updateRetryCount store item.id now)

/-- `syncPendingData()` (`src/unnamed/part_003`, lines 396-471): fetch the
pending items once, return unchanged if there are none, else run the
delivery loop over that snapshot. -/
def syncPendingData (send : QueueItem → Except String Unit) (now : Nat)
    (store : List QueueItem) : List QueueItem :=
  let pending := getPendingSyncItems store
  if pending.isEmpty then store else bgSyncLoop send now pending store

/-- Milliseconds per day, as in the source's retention arithmetic. -/
def msPerDay : Nat := 86400000

/-- `cleanupOldRecords(daysToKeep)` (`src/unnamed/part_001`, lines
373-395): select the records with `timestamp` before the cutoff AND
`status === 'synced'`, delete each selected record by id, and return the
count removed.  (JavaScript date arithmetic is modelled on `Nat`; a cutoff
before epoch selects nothing in both.) -/
def cleanupOldRecords (now daysToKeep : Nat) (store : List QueueItem) :
    List QueueItem × Nat :=
  let cutoff := now - daysToKeep * msPerDay
  let oldRecords :=
    store.filter (fun r => decide (r.timestamp < cutoff) && r.status == "synced")
  (oldRecords.foldl (fun s r => deleteItem s r.id) store, oldRecords.length)

/-- A request as far as the service worker's `fetch` handler inspects it:
URL, method, `request.destination`, and the `accept` header. -/
structure Request where
  url : String
  method : String
  destination : String
  accept : String
deriving Repr, DecidableEq

/-- A flat JSON leaf value; every JSON body the service worker synthesizes
is a flat object of string/number fields. -/
inductive JsonVal where
  | str (s : String)
  | num (n : Nat)
deriving Repr, DecidableEq

/-- A response body: opaque text (cached bytes, SVG placeholders) or the
`JSON.stringify` of a flat object. -/
inductive Body where
  | text (s : String)
  | jsonObj (fields : List (String × JsonVal))
deriving Repr, DecidableEq

/-- A stored/served response snapshot: status, statusText, headers, body.
Per the WHATWG Fetch standard, `new Response(body, init)` with no
`init.status` defaults `status` to 200 and `statusText` to the empty
string; the embedding spells that default out wherever the source relies
on it. -/
structure Response where
  status : Nat
  statusText : String
  headers : List (String × String)
  body : Body
deriving Repr, DecidableEq

/-- `headers.set(name, value)`: replace an existing header of that name,
else append.  (Uses in the source are case-consistent, so ASCII
case-insensitivity of header names is not modelled.) -/
def setHeader (hs : List (String × String)) (name value : String) :
    List (String × String) :=
  if hs.any (fun h => h.1 == name) then
    hs.map (fun h => if h.1 == name then (name, value) else h)
  else
    hs ++ [(name, value)]

/-- `headers.get(name)`. -/
def getHeader (hs : List (String × String)) (name : String) : Option String :=
  (hs.find? (fun h => h.1 == name)).map (fun h => h.2)

/-- `cache.match(request)` over one named partition: at most one entry per
request identity. -/
def cacheMatch (c : List (Request × Response)) (req : Request) :
    Option Response :=
  (c.find? (fun e => e.1 == req)).map (fun e => e.2)

/-- `cache.put(request, response)`: replace the entry for that request
identity, never merge; absent entries are added. -/
def cachePut (c : List (Request × Response)) (req : Request)
    (resp : Response) : List (Request × Response) :=
  if c.any (fun e => e.1 == req) then
    c.map (fun e => if e.1 == req then (req, resp) else e)
  else
    c ++ [(req, resp)]

/-- The four named cache partitions of `src/unnamed/part_003`:
`CACHE_NAME` (static), `API_CACHE`, `IMAGE_CACHE`, `DYNAMIC_CACHE`. -/
structure CacheState where
  staticCache : List (Request × Response)
  apiCache : List (Request × Response)
  imageCache : List (Request × Response)
  dynamicCache : List (Request × Response)
deriving Repr, DecidableEq

/-- What one strategy invocation produced: the response handed to the
page, the cache partitions afterwards, and whether a network `fetch` was
issued for the request. -/
structure StrategyResult where
  response : Response
  caches : CacheState
  networkCalled : Bool
deriving Repr, DecidableEq

/-- `url.split('/').pop()`: last path segment of the request URL. -/
def lastSegment (url : String) : String :=
  (url.splitOn "/").getLastD ""

/-- The synthesized SVG placeholder of `imageStrategy`
(`src/unnamed/part_003`, lines 204-222): an `image/svg+xml` body naming the
missing file, tagged `X-Offline: true`, built by `new Response` with the
default 200 status. -/
def placeholderImage (req : Request) : Response :=
  { status := 200, statusText := ""
    headers := [("Content-Type", "image/svg+xml"), ("X-Offline", "true")]
    body := Body.text
      ("<svg><rect fill=#f0f0f0/><text>Image not available offline</text><text>"
        ++ lastSegment req.url ++ "</text></svg>") }

/-- `imageStrategy(event)` (`src/unnamed/part_003`, lines 183-223),
cache-first over `IMAGE_CACHE`: a cache hit is returned immediately with
no fetch; on a miss the network is tried, a 200 response is stored, and a
network failure is answered with the SVG placeholder (the whole fetch path
is inside `try/catch`, so the strategy itself never rejects). -/
def imageStrategy (net : Request → Except String Response) (cs : CacheState)
    (req : Request) : Except String StrategyResult :=
  match cacheMatch cs.imageCache req with
  | some cached =>
    Except.ok { response := cached, caches := cs, networkCalled := false }
  | none =>
    match net req with
    | Except.ok resp =>
      let cs2 :=
        if resp.status == 200 then
          { cs with imageCache := cachePut cs.imageCache req resp }
        else cs
      Except.ok { response := resp, caches := cs2, networkCalled := true }
    | Except.error _ =>
      Except.ok { response := placeholderImage req, caches := cs, networkCalled := true }

/-- `staticStrategy(event)` (`src/unnamed/part_003`, lines 253-263),
cache-first over `CACHE_NAME`: a cache hit is returned with no fetch; on a
miss it falls back to a bare `fetch(event.request)` with no catch, so a
network failure propagates as a rejection. -/
def staticStrategy (net : Request → Except String Response) (cs : CacheState)
    (req : Request) : Except String StrategyResult :=
  match cacheMatch cs.staticCache req with
  | some cached =>
    Except.ok { response := cached, caches := cs, networkCalled := false }
  | none =>
    match net req with
    | Except.ok resp =>
      Except.ok { response := resp, caches := cs, networkCalled := true }
    | Except.error e => Except.error e

/-- The synthesized offline JSON payload of `apiStrategy`
(`src/unnamed/part_003`, lines 166-178): `JSON.stringify({ status:
'offline', message: ..., timestamp: ... })`. -/
def offlineJsonBody (now : Nat) : Body :=
  Body.jsonObj
    [("status", JsonVal.str "offline"),
     ("message", JsonVal.str "You are offline. Data may be outdated."),
     ("timestamp", JsonVal.num now)]

/-- `apiStrategy(event)` (`src/unnamed/part_003`, lines 132-180),
network-first over `API_CACHE`: try the network and store a clone of a 200
response; on network failure serve the cached entry re-wrapped with
`X-Cache: HIT` and `X-Offline: true` headers, else synthesize the offline
JSON response — `new Response(JSON.stringify(...), { headers })` with no
`init.status`, hence the default 200.  Every failure path returns a
response, so the strategy never rejects. -/
def apiStrategy (net : Request → Except String Response) (now : Nat)
    (cs : CacheState) (req : Request) : Except String StrategyResult :=
  match net req with
  | Except.ok resp =>
    let cs2 :=
      if resp.status == 200 then
        { cs with apiCache := cachePut cs.apiCache req resp }
      else cs
    Except.ok { response := resp, caches := cs2, networkCalled := true }
  | Except.error _ =>
    match cacheMatch cs.apiCache req with
    | some cached =>
      Except.ok
        { response :=
            { status := cached.status, statusText := cached.statusText
              headers := setHeader (setHeader cached.headers "X-Cache" "HIT") "X-Offline" "true"
              body := cached.body }
          caches := cs, networkCalled := true }
    | none =>
      Except.ok
        { response :=
            { status := 200, statusText := ""
              headers := [("Content-Type", "application/json"), ("X-Offline", "true")]
              body := offlineJsonBody now }
          caches := cs, networkCalled := true }

/-- `apiFirstStrategy(event)` of the other service-worker variant
(`src/service-worker.js`, lines 127-161): network first over `API_CACHE`;
on failure the cached entry is returned as-is, else the offline JSON
fallback `new Response(JSON.stringify({ status: 'offline', message: ...}),
{ headers })`, again with the constructor's default 200 status. -/
def apiFirstStrategy (net : Request → Except String Response)
    (cs : CacheState) (req : Request) : Except String StrategyResult :=
  match net req with
  | Except.ok resp =>
    let cs2 :=
      if resp.status == 200 then
        { cs with apiCache := cachePut cs.apiCache req resp }
      else cs
    Except.ok { response := resp, caches := cs2, networkCalled := true }
  | Except.error _ =>
    match cacheMatch cs.apiCache req with
    | some cached =>
      Except.ok { response := cached, caches := cs, networkCalled := true }
    | none =>
      Except.ok
        { response :=
            { status := 200, statusText := ""
              headers := [("Content-Type", "application/json"), ("X-Offline", "true")]
              body := Body.jsonObj
                [("status", JsonVal.str "offline"),
                 ("message", JsonVal.str "You are offline. Data may be outdated.")] }
          caches := cs, networkCalled := true }

/-- A freshly enqueued pending item used as a concrete test input. -/
def itemA : QueueItem :=
  { id := "a", type := "listing_create", payload := "maize listing",
    timestamp := 0, status := "pending", attempts := 0,
    lastError := none, lastAttempt := none, syncedAt := none }

/-- A second pending item, queued after `itemA`. -/
def itemB : QueueItem := { itemA with id := "b" }

/-- A pending item that has already exhausted its retries
(`attempts = 3 = maxRetries`). -/
def itemB3 : QueueItem := { itemA with id := "b", attempts := 3 }

/-- Delivery oracle: item `a` rejects with the simulated timeout error of
`sendToServer` (`src/unnamed/part_001`, line 210: `new Error('Server
timeout')`), every other item succeeds. -/
def sendTimeoutA : QueueItem → Except String Unit :=
  fun it => if it.id == "a" then Except.error "Server timeout" else Except.ok ()

/-- Delivery oracle: item `a` rejects with the simulated network error
(`src/unnamed/part_001`, line 209: `new Error('Network request failed')`),
every other item succeeds. -/
def sendNetworkA : QueueItem → Except String Unit :=
  fun it => if it.id == "a" then Except.error "Network request failed" else Except.ok ()

/-- Delivery oracle: every delivery rejects with the simulated network
error. -/
def sendNetworkAll : QueueItem → Except String Unit :=
  fun _ => Except.error "Network request failed"

/-- Delivery oracle: every delivery rejects with the background-sync mock's
error (`src/unnamed/part_003`, line 574: `new Error('Simulated server
error')`). -/
def sendBgFail : QueueItem → Except String Unit :=
  fun _ => Except.error "Simulated server error"

/-- A coordinator state ready to drain: not in progress, online, the given
items both in memory and persisted. -/
def mkState (q : List QueueItem) : SyncState :=
  { syncQueue := q, syncInProgress := false, online := true,
    store := q, lastSync := none }

/-- The store produced by one `addToQueue` of item `a` (successful
persistence). -/
def c2store0 : List QueueItem :=
  match addToQueue false "a" 0 [] [] "listing_create" "maize listing" with
  | Except.ok out => out.store
  | Except.error _ => []

/-- The store after that enqueue followed by four background-sync passes
whose deliveries all fail: `updateRetryCount` bumps `attempts` each time
with no `maxRetries` guard. -/
def c2store4 : List QueueItem :=
  syncPendingData sendBgFail 4
    (syncPendingData sendBgFail 3
      (syncPendingData sendBgFail 2
        (syncPendingData sendBgFail 1 c2store0)))

/-- A concrete GET request for an image resource. -/
def reqImg : Request :=
  { url := "/images/maize.jpg", method := "GET", destination := "image",
    accept := "image/avif" }

/-- A concrete GET request for a pre-cached static asset. -/
def reqCss : Request :=
  { url := "/css/style.css", method := "GET", destination := "style",
    accept := "text/css" }

/-- A concrete GET request for an API resource. -/
def reqApi : Request :=
  { url := "/api/crops", method := "GET", destination := "",
    accept := "application/json" }

/-- A concrete cached response snapshot. -/
def respCached : Response :=
  { status := 200, statusText := "OK",
    headers := [("Content-Type", "image/jpeg")],
    body := Body.text "cached bytes" }

/-- A network that rejects every fetch with the browser's offline
`TypeError: Failed to fetch`. -/
def netDown : Request → Except String Response :=
  fun _ => Except.error "Failed to fetch"

/-- Cache partitions pre-populated with `reqImg` in the image partition and
`reqCss` in the static partition. -/
def csPrepopulated : CacheState :=
  { staticCache := [(reqCss, respCached)], apiCache := [],
    imageCache := [(reqImg, respCached)], dynamicCache := [] }

/-- Empty cache partitions. -/
def csEmpty : CacheState :=
  { staticCache := [], apiCache := [], imageCache := [], dynamicCache := [] }

/-! ## Helper lemmas about the record store -/

theorem find?_cons_true {α : Type} (pred : α → Bool) (y : α) (l : List α)
    (h : pred y = true) : (y :: l).find? pred = some y := by
  simp [List.find?_cons, h]

theorem find?_cons_false {α : Type} (pred : α → Bool) (y : α) (l : List α)
    (h : pred y = false) : (y :: l).find? pred = l.find? pred := by
  simp [List.find?_cons, h]

theorem getItem_mem {store : List QueueItem} {id : String} {x : QueueItem}
    (h : getItem store id = some x) : x ∈ store := by
  unfold getItem at h
  exact List.mem_of_find?_eq_some h

theorem getItem_id {store : List QueueItem} {id : String} {x : QueueItem}
    (h : getItem store id = some x) : x.id = id := by
  unfold getItem at h
  have h2 := List.find?_some h
  simpa using h2

theorem applyPatch_id (it : QueueItem) (p : ItemPatch) :
    (applyPatch it p).id = it.id := rfl

theorem mem_putItem {store : List QueueItem} {x it : QueueItem}
    (h : it ∈ putItem store x) : it ∈ store ∨ it = x := by
  unfold putItem at h
  split at h
  · rcases List.mem_map.mp h with ⟨y, hy, hyx⟩
    by_cases hid : (y.id == x.id) = true
    · right
      rw [if_pos hid] at hyx
      exact hyx.symm
    · left
      rw [if_neg hid] at hyx
      exact hyx ▸ hy
  · rcases List.mem_append.mp h with h1 | h1
    · exact Or.inl h1
    · right
      simpa using h1

theorem find?_map_replace (store : List QueueItem) (x : QueueItem) (id : String)
    (h : ¬ (x.id = id)) :
    (store.map (fun it => if it.id == x.id then x else it)).find?
        (fun it => it.id == id)
      = store.find? (fun it => it.id == id) := by
  induction store with
  | nil => rfl
  | cons y ys ih =>
    simp only [List.map_cons]
    by_cases h1 : (y.id == x.id) = true
    · rw [if_pos h1]
      have hx : (x.id == id) = false := beq_eq_false_iff_ne.mpr h
      have hy2 : (y.id == id) = false := by
        rw [eq_of_beq h1]
        exact hx
      rw [find?_cons_false (fun it => it.id == id) x _ hx,
        find?_cons_false (fun it => it.id == id) y _ hy2]
      exact ih
    · rw [if_neg h1]
      by_cases h2 : (y.id == id) = true
      · rw [find?_cons_true (fun it => it.id == id) y _ h2,
          find?_cons_true (fun it => it.id == id) y _ h2]
      · have h2f : (y.id == id) = false := by simpa using h2
        rw [find?_cons_false (fun it => it.id == id) y _ h2f,
          find?_cons_false (fun it => it.id == id) y _ h2f]
        exact ih

theorem getItem_putItem_ne {store : List QueueItem} {x : QueueItem}
    {id : String} (h : ¬ (x.id = id)) :
    getItem (putItem store x) id = getItem store id := by
  unfold putItem getItem
  split
  · exact find?_map_replace store x id h
  · rw [List.find?_append]
    cases hf : store.find? (fun it => it.id == id) with
    | some y => rfl
    | none =>
      rw [find?_cons_false (fun it => it.id == id) x [] (beq_eq_false_iff_ne.mpr h)]
      rfl

theorem getItem_updateStore_ne {store : List QueueItem} {id2 : String}
    {p : ItemPatch} {id : String} (h : ¬ (id2 = id)) :
    getItem (updateStore store id2 p) id = getItem store id := by
  unfold updateStore
  cases hg : getItem store id2 with
  | none => rfl
  | some it =>
    apply getItem_putItem_ne
    rw [applyPatch_id, getItem_id hg]
    exact h

theorem find?_map_replace_self (store : List QueueItem) (x : QueueItem)
    (id : String) (hx : x.id = id)
    (hf : (store.find? (fun it => it.id == id)).isSome = true) :
    (store.map (fun it => if it.id == x.id then x else it)).find?
        (fun it => it.id == id)
      = some x := by
  induction store with
  | nil => simp [List.find?] at hf
  | cons y ys ih =>
    simp only [List.map_cons]
    by_cases h1 : (y.id == id) = true
    · have h2 : (y.id == x.id) = true := by rw [hx]; exact h1
      rw [if_pos h2]
      exact find?_cons_true (fun it => it.id == id) x _ (beq_iff_eq.mpr hx)
    · have h1f : (y.id == id) = false := by simpa using h1
      have h2 : (y.id == x.id) = false := by rw [hx]; exact h1f
      rw [if_neg (by simp [h2])]
      rw [find?_cons_false (fun it => it.id == id) y _ h1f]
      apply ih
      rw [find?_cons_false (fun it => it.id == id) y _ h1f] at hf
      exact hf

theorem getItem_updateStore_self {store : List QueueItem} {id : String}
    {p : ItemPatch} {it : QueueItem} (hg : getItem store id = some it) :
    getItem (updateStore store id p) id = some (applyPatch it p) := by
  have hid : it.id = id := getItem_id hg
  have hstep : updateStore store id p = putItem store (applyPatch it p) := by
    unfold updateStore
    rw [hg]
  rw [hstep]
  have hany : store.any (fun y => y.id == (applyPatch it p).id) = true := by
    apply List.any_eq_true.mpr
    refine ⟨it, getItem_mem hg, ?_⟩
    rw [applyPatch_id]
    exact beq_self_eq_true _
  unfold putItem
  rw [if_pos hany]
  unfold getItem
  apply find?_map_replace_self
  · rw [applyPatch_id]
    exact hid
  · unfold getItem at hg
    rw [hg]
    rfl

/-! ## Unfolding equations for the drain loop -/

theorem drainLoop_nil (send : QueueItem → Except String Unit) (now : Nat)
    (store : List QueueItem) :
    drainLoop send now [] store =
      { store := store, items := [], successItems := [], failedItems := [],
        failFast := false } := rfl

theorem drainLoop_cons_skip (send : QueueItem → Except String Unit) (now : Nat)
    (item : QueueItem) (rest store : List QueueItem)
    (h : maxRetries ≤ item.attempts) :
    drainLoop send now (item :: rest) store =
      { store := (drainLoop send now rest store).store
        items := item :: (drainLoop send now rest store).items
        successItems := (drainLoop send now rest store).successItems
        failedItems :=
          (item, "Max retries exceeded") :: (drainLoop send now rest store).failedItems
        failFast := (drainLoop send now rest store).failFast } := by
  conv_lhs => unfold drainLoop
  rw [if_pos h]

theorem drainLoop_cons_ok (send : QueueItem → Except String Unit) (now : Nat)
    (item : QueueItem) (rest store : List QueueItem) (u : Unit)
    (hlt : ¬ maxRetries ≤ item.attempts)
    (hsend : send (bumpAttempts item) = Except.ok u) :
    drainLoop send now (item :: rest) store =
      { store := (drainLoop send now rest
          (updateStore (updateStore store item.id (attemptsPatch (bumpAttempts item).attempts))
            item.id (syncedPatch now))).store
        items := bumpAttempts item :: (drainLoop send now rest
          (updateStore (updateStore store item.id (attemptsPatch (bumpAttempts item).attempts))
            item.id (syncedPatch now))).items
        successItems := item.id :: (drainLoop send now rest
          (updateStore (updateStore store item.id (attemptsPatch (bumpAttempts item).attempts))
            item.id (syncedPatch now))).successItems
        failedItems := (drainLoop send now rest
          (updateStore (updateStore store item.id (attemptsPatch (bumpAttempts item).attempts))
            item.id (syncedPatch now))).failedItems
        failFast := (drainLoop send now rest
          (updateStore (updateStore store item.id (attemptsPatch (bumpAttempts item).attempts))
            item.id (syncedPatch now))).failFast } := by
  conv_lhs => unfold drainLoop
  rw [if_neg hlt]
  dsimp only
  rw [hsend]

theorem drainLoop_cons_err_net (send : QueueItem → Except String Unit)
    (now : Nat) (item : QueueItem) (rest store : List QueueItem) (msg : String)
    (hlt : ¬ maxRetries ≤ item.attempts)
    (hsend : send (bumpAttempts item) = Except.error msg)
    (hnet : isNetworkError msg = true) :
    drainLoop send now (item :: rest) store =
      { store := updateStore (updateStore store item.id
            (attemptsPatch (bumpAttempts item).attempts)) item.id (errorPatch msg now)
        items := bumpAttempts item :: rest
        successItems := []
        failedItems := [(bumpAttempts item, msg)]
        failFast := true } := by
  conv_lhs => unfold drainLoop
  rw [if_neg hlt]
  dsimp only
  rw [hsend]
  dsimp only
  rw [if_pos hnet]

theorem drainLoop_cons_err_data (send : QueueItem → Except String Unit)
    (now : Nat) (item : QueueItem) (rest store : List QueueItem) (msg : String)
    (hlt : ¬ maxRetries ≤ item.attempts)
    (hsend : send (bumpAttempts item) = Except.error msg)
    (hnet : isNetworkError msg = false) :
    drainLoop send now (item :: rest) store =
      { store := (drainLoop send now rest
          (updateStore (updateStore store item.id (attemptsPatch (bumpAttempts item).attempts))
            item.id (errorPatch msg now))).store
        items := bumpAttempts item :: (drainLoop send now rest
          (updateStore (updateStore store item.id (attemptsPatch (bumpAttempts item).attempts))
            item.id (errorPatch msg now))).items
        successItems := (drainLoop send now rest
          (updateStore (updateStore store item.id (attemptsPatch (bumpAttempts item).attempts))
            item.id (errorPatch msg now))).successItems
        failedItems := (bumpAttempts item, msg) :: (drainLoop send now rest
          (updateStore (updateStore store item.id (attemptsPatch (bumpAttempts item).attempts))
            item.id (errorPatch msg now))).failedItems
        failFast := (drainLoop send now rest
          (updateStore (updateStore store item.id (attemptsPatch (bumpAttempts item).attempts))
            item.id (errorPatch msg now))).failFast } := by
  conv_lhs => unfold drainLoop
  rw [if_neg hlt]
  dsimp only
  rw [hsend]
  dsimp only
  rw [if_neg (by simp [hnet])]

/-! ## Invariants of the drain loop -/

theorem attempts_le_updateStore {store : List QueueItem} {id : String}
    {p : ItemPatch} {B : Nat}
    (hs : ∀ it ∈ store, it.attempts ≤ B)
    (hp : ∀ n, p.attempts = some n → n ≤ B) :
    ∀ it ∈ updateStore store id p, it.attempts ≤ B := by
  intro it hmem
  unfold updateStore at hmem
  split at hmem
  case h_1 x hg =>
    rcases mem_putItem hmem with h1 | h1
    · exact hs it h1
    · subst h1
      cases hpa : p.attempts with
      | some n =>
        have hproj : (applyPatch x p).attempts = n := by simp [applyPatch, hpa]
        rw [hproj]
        exact hp n hpa
      | none =>
        have hproj : (applyPatch x p).attempts = x.attempts := by simp [applyPatch, hpa]
        rw [hproj]
        exact hs x (getItem_mem hg)
  case h_2 => exact hs it hmem

theorem drainLoop_store_bound (send : QueueItem → Except String Unit)
    (now : Nat) :
    ∀ (queue store : List QueueItem),
      (∀ it ∈ store, it.attempts ≤ maxRetries) →
      (∀ it ∈ queue, it.attempts ≤ maxRetries) →
      ∀ it ∈ (drainLoop send now queue store).store, it.attempts ≤ maxRetries := by
  intro queue
  induction queue with
  | nil =>
    intro store hs hq
    rw [drainLoop_nil]
    exact hs
  | cons item rest ih =>
    intro store hs hq
    have hqrest : ∀ it ∈ rest, it.attempts ≤ maxRetries :=
      fun it h => hq it (List.mem_cons_of_mem _ h)
    by_cases hskip : maxRetries ≤ item.attempts
    · rw [drainLoop_cons_skip send now item rest store hskip]
      exact ih store hs hqrest
    · have hlt : item.attempts < maxRetries := Nat.lt_of_not_le hskip
      have hb1 : ∀ it2 ∈ updateStore store item.id
          (attemptsPatch (bumpAttempts item).attempts), it2.attempts ≤ maxRetries := by
        apply attempts_le_updateStore hs
        intro n hn
        have hn2 : (bumpAttempts item).attempts = n := by
          simpa [attemptsPatch] using hn
        rw [← hn2]
        exact hlt
      cases hsend : send (bumpAttempts item) with
      | ok u =>
        rw [drainLoop_cons_ok send now item rest store u hskip hsend]
        apply ih _ _ hqrest
        apply attempts_le_updateStore hb1
        intro n hn
        simp [syncedPatch] at hn
      | error msg =>
        by_cases hnet : isNetworkError msg = true
        · rw [drainLoop_cons_err_net send now item rest store msg hskip hsend hnet]
          apply attempts_le_updateStore hb1
          intro n hn
          simp [errorPatch] at hn
        · have hnetf : isNetworkError msg = false := by simpa using hnet
          rw [drainLoop_cons_err_data send now item rest store msg hskip hsend hnetf]
          apply ih _ _ hqrest
          apply attempts_le_updateStore hb1
          intro n hn
          simp [errorPatch] at hn

theorem drainLoop_items_bound (send : QueueItem → Except String Unit)
    (now : Nat) :
    ∀ (queue store : List QueueItem),
      (∀ it ∈ queue, it.attempts ≤ maxRetries) →
      ∀ it ∈ (drainLoop send now queue store).items,
        ∃ q, q ∈ queue ∧ q.id = it.id ∧ q.attempts ≤ it.attempts ∧
          it.attempts ≤ maxRetries := by
  intro queue
  induction queue with
  | nil =>
    intro store hq it hmem
    rw [drainLoop_nil] at hmem
    simp at hmem
  | cons item rest ih =>
    intro store hq it hmem
    have hqrest : ∀ it2 ∈ rest, it2.attempts ≤ maxRetries :=
      fun it2 h => hq it2 (List.mem_cons_of_mem _ h)
    have hhead : item.attempts ≤ maxRetries := hq item (List.mem_cons_self item rest)
    by_cases hskip : maxRetries ≤ item.attempts
    · rw [drainLoop_cons_skip send now item rest store hskip] at hmem
      rcases List.mem_cons.mp hmem with h1 | h1
      · exact ⟨item, List.mem_cons_self item rest, by rw [h1], by rw [h1], by rw [h1]; exact hhead⟩
      · rcases ih store hqrest it h1 with ⟨q, hq1, hq2, hq3, hq4⟩
        exact ⟨q, List.mem_cons_of_mem _ hq1, hq2, hq3, hq4⟩
    · have hlt : item.attempts < maxRetries := Nat.lt_of_not_le hskip
      have hbump : ∃ q, q ∈ item :: rest ∧ q.id = (bumpAttempts item).id ∧
          q.attempts ≤ (bumpAttempts item).attempts ∧
          (bumpAttempts item).attempts ≤ maxRetries :=
        ⟨item, List.mem_cons_self item rest, rfl, Nat.le_succ _, hlt⟩
      cases hsend : send (bumpAttempts item) with
      | ok u =>
        rw [drainLoop_cons_ok send now item rest store u hskip hsend] at hmem
        rcases List.mem_cons.mp hmem with h1 | h1
        · rw [h1]
          exact hbump
        · rcases ih _ hqrest it h1 with ⟨q, hq1, hq2, hq3, hq4⟩
          exact ⟨q, List.mem_cons_of_mem _ hq1, hq2, hq3, hq4⟩
      | error msg =>
        by_cases hnet : isNetworkError msg = true
        · rw [drainLoop_cons_err_net send now item rest store msg hskip hsend hnet] at hmem
          rcases List.mem_cons.mp hmem with h1 | h1
          · rw [h1]
            exact hbump
          · exact ⟨it, List.mem_cons_of_mem _ h1, rfl, Nat.le_refl _, hqrest it h1⟩
        · have hnetf : isNetworkError msg = false := by simpa using hnet
          rw [drainLoop_cons_err_data send now item rest store msg hskip hsend hnetf] at hmem
          rcases List.mem_cons.mp hmem with h1 | h1
          · rw [h1]
            exact hbump
          · rcases ih _ hqrest it h1 with ⟨q, hq1, hq2, hq3, hq4⟩
            exact ⟨q, List.mem_cons_of_mem _ hq1, hq2, hq3, hq4⟩

theorem drainLoop_success_src (send : QueueItem → Except String Unit)
    (now : Nat) :
    ∀ (queue store : List QueueItem) (s : String),
      s ∈ (drainLoop send now queue store).successItems →
      ∃ q, q ∈ queue ∧ q.id = s ∧ q.attempts < maxRetries := by
  intro queue
  induction queue with
  | nil =>
    intro store s hmem
    rw [drainLoop_nil] at hmem
    simp at hmem
  | cons item rest ih =>
    intro store s hmem
    by_cases hskip : maxRetries ≤ item.attempts
    · rw [drainLoop_cons_skip send now item rest store hskip] at hmem
      rcases ih store s hmem with ⟨q, hq1, hq2, hq3⟩
      exact ⟨q, List.mem_cons_of_mem _ hq1, hq2, hq3⟩
    · have hlt : item.attempts < maxRetries := Nat.lt_of_not_le hskip
      cases hsend : send (bumpAttempts item) with
      | ok u =>
        rw [drainLoop_cons_ok send now item rest store u hskip hsend] at hmem
        rcases List.mem_cons.mp hmem with h1 | h1
        · exact ⟨item, List.mem_cons_self item rest, h1.symm, hlt⟩
        · rcases ih _ s h1 with ⟨q, hq1, hq2, hq3⟩
          exact ⟨q, List.mem_cons_of_mem _ hq1, hq2, hq3⟩
      | error msg =>
        by_cases hnet : isNetworkError msg = true
        · rw [drainLoop_cons_err_net send now item rest store msg hskip hsend hnet] at hmem
          simp at hmem
        · have hnetf : isNetworkError msg = false := by simpa using hnet
          rw [drainLoop_cons_err_data send now item rest store msg hskip hsend hnetf] at hmem
          rcases ih _ s hmem with ⟨q, hq1, hq2, hq3⟩
          exact ⟨q, List.mem_cons_of_mem _ hq1, hq2, hq3⟩

theorem drainLoop_failFast_failedItems (send : QueueItem → Except String Unit)
    (now : Nat) :
    ∀ (queue store : List QueueItem),
      (drainLoop send now queue store).failFast = true →
      (drainLoop send now queue store).failedItems ≠ [] := by
  intro queue
  induction queue with
  | nil =>
    intro store h
    rw [drainLoop_nil] at h
    simp at h
  | cons item rest ih =>
    intro store h
    by_cases hskip : maxRetries ≤ item.attempts
    · rw [drainLoop_cons_skip send now item rest store hskip]
      exact List.cons_ne_nil _ _
    · cases hsend : send (bumpAttempts item) with
      | ok u =>
        rw [drainLoop_cons_ok send now item rest store u hskip hsend] at h ⊢
        exact ih _ h
      | error msg =>
        by_cases hnet : isNetworkError msg = true
        · rw [drainLoop_cons_err_net send now item rest store msg hskip hsend hnet]
          exact List.cons_ne_nil _ _
        · have hnetf : isNetworkError msg = false := by simpa using hnet
          rw [drainLoop_cons_err_data send now item rest store msg hskip hsend hnetf]
          exact List.cons_ne_nil _ _

theorem drainLoop_store_other (send : QueueItem → Except String Unit)
    (now : Nat) :
    ∀ (queue store : List QueueItem) (id : String),
      (∀ q ∈ queue, ¬ q.id = id) →
      getItem (drainLoop send now queue store).store id = getItem store id := by
  intro queue
  induction queue with
  | nil =>
    intro store id h
    rw [drainLoop_nil]
  | cons item rest ih =>
    intro store id h
    have hhead : ¬ item.id = id := h item (List.mem_cons_self item rest)
    have hrest : ∀ q ∈ rest, ¬ q.id = id :=
      fun q hq => h q (List.mem_cons_of_mem _ hq)
    by_cases hskip : maxRetries ≤ item.attempts
    · rw [drainLoop_cons_skip send now item rest store hskip]
      exact ih store id hrest
    · cases hsend : send (bumpAttempts item) with
      | ok u =>
        rw [drainLoop_cons_ok send now item rest store u hskip hsend]
        rw [ih _ id hrest, getItem_updateStore_ne hhead, getItem_updateStore_ne hhead]
      | error msg =>
        by_cases hnet : isNetworkError msg = true
        · rw [drainLoop_cons_err_net send now item rest store msg hskip hsend hnet]
          show getItem (updateStore _ _ _) id = getItem store id
          rw [getItem_updateStore_ne hhead, getItem_updateStore_ne hhead]
        · have hnetf : isNetworkError msg = false := by simpa using hnet
          rw [drainLoop_cons_err_data send now item rest store msg hskip hsend hnetf]
          rw [ih _ id hrest, getItem_updateStore_ne hhead, getItem_updateStore_ne hhead]

theorem drainLoop_store_exhausted_id (send : QueueItem → Except String Unit)
    (now : Nat) :
    ∀ (queue store : List QueueItem) (id : String),
      (∀ q ∈ queue, q.id = id → maxRetries ≤ q.attempts) →
      getItem (drainLoop send now queue store).store id = getItem store id := by
  intro queue
  induction queue with
  | nil =>
    intro store id h
    rw [drainLoop_nil]
  | cons item rest ih =>
    intro store id h
    have hrest : ∀ q ∈ rest, q.id = id → maxRetries ≤ q.attempts :=
      fun q hq => h q (List.mem_cons_of_mem _ hq)
    by_cases hskip : maxRetries ≤ item.attempts
    · rw [drainLoop_cons_skip send now item rest store hskip]
      exact ih store id hrest
    · have hhead : ¬ item.id = id := by
        intro hc
        exact hskip (h item (List.mem_cons_self item rest) hc)
      cases hsend : send (bumpAttempts item) with
      | ok u =>
        rw [drainLoop_cons_ok send now item rest store u hskip hsend]
        rw [ih _ id hrest, getItem_updateStore_ne hhead, getItem_updateStore_ne hhead]
      | error msg =>
        by_cases hnet : isNetworkError msg = true
        · rw [drainLoop_cons_err_net send now item rest store msg hskip hsend hnet]
          show getItem (updateStore _ _ _) id = getItem store id
          rw [getItem_updateStore_ne hhead, getItem_updateStore_ne hhead]
        · have hnetf : isNetworkError msg = false := by simpa using hnet
          rw [drainLoop_cons_err_data send now item rest store msg hskip hsend hnetf]
          rw [ih _ id hrest, getItem_updateStore_ne hhead, getItem_updateStore_ne hhead]

theorem drainLoop_exhausted_mem (send : QueueItem → Except String Unit)
    (now : Nat) :
    ∀ (queue store : List QueueItem) (item : QueueItem),
      item ∈ queue → maxRetries ≤ item.attempts →
      item ∈ (drainLoop send now queue store).items ∧
      ((drainLoop send now queue store).failFast = false →
        (item, "Max retries exceeded") ∈ (drainLoop send now queue store).failedItems) := by
  intro queue
  induction queue with
  | nil =>
    intro store item hmem
    simp at hmem
  | cons q rest ih =>
    intro store item hmem hex
    rcases List.mem_cons.mp hmem with hq | hq
    · subst hq
      rw [drainLoop_cons_skip send now item rest store hex]
      exact ⟨List.mem_cons_self _ _, fun _ => List.mem_cons_self _ _⟩
    · by_cases hskip : maxRetries ≤ q.attempts
      · rw [drainLoop_cons_skip send now q rest store hskip]
        rcases ih store item hq hex with ⟨h1, h2⟩
        exact ⟨List.mem_cons_of_mem _ h1, fun hf => List.mem_cons_of_mem _ (h2 hf)⟩
      · cases hsend : send (bumpAttempts q) with
        | ok u =>
          rw [drainLoop_cons_ok send now q rest store u hskip hsend]
          rcases ih _ item hq hex with ⟨h1, h2⟩
          exact ⟨List.mem_cons_of_mem _ h1, fun hf => h2 hf⟩
        | error msg =>
          by_cases hnet : isNetworkError msg = true
          · rw [drainLoop_cons_err_net send now q rest store msg hskip hsend hnet]
            refine ⟨List.mem_cons_of_mem _ hq, ?_⟩
            intro hf
            simp at hf
          · have hnetf : isNetworkError msg = false := by simpa using hnet
            rw [drainLoop_cons_err_data send now q rest store msg hskip hsend hnetf]
            rcases ih _ item hq hex with ⟨h1, h2⟩
            exact ⟨List.mem_cons_of_mem _ h1, fun hf => List.mem_cons_of_mem _ (h2 hf)⟩

theorem contains_eq_false_of_not_mem {l : List String} {a : String}
    (h : ¬ a ∈ l) : l.contains a = false := by
  cases hc : l.contains a with
  | false => rfl
  | true => exact absurd (List.mem_of_elem_eq_true hc) h

theorem drainLoop_append (send : QueueItem → Except String Unit) (now : Nat) :
    ∀ (l1 l2 store : List QueueItem),
      (drainLoop send now l1 store).failFast = false →
      drainLoop send now (l1 ++ l2) store =
        { store := (drainLoop send now l2 (drainLoop send now l1 store).store).store
          items := (drainLoop send now l1 store).items ++
            (drainLoop send now l2 (drainLoop send now l1 store).store).items
          successItems := (drainLoop send now l1 store).successItems ++
            (drainLoop send now l2 (drainLoop send now l1 store).store).successItems
          failedItems := (drainLoop send now l1 store).failedItems ++
            (drainLoop send now l2 (drainLoop send now l1 store).store).failedItems
          failFast := (drainLoop send now l2 (drainLoop send now l1 store).store).failFast } := by
  intro l1
  induction l1 with
  | nil =>
    intro l2 store h
    rw [List.nil_append, drainLoop_nil]
    dsimp only
    rw [List.nil_append, List.nil_append, List.nil_append]
  | cons q l1' ih =>
    intro l2 store h
    by_cases hskip : maxRetries ≤ q.attempts
    · rw [drainLoop_cons_skip send now q l1' store hskip] at h
      dsimp only at h
      rw [List.cons_append, drainLoop_cons_skip send now q (l1' ++ l2) store hskip,
        drainLoop_cons_skip send now q l1' store hskip, ih l2 store h]
      dsimp only
      rw [List.cons_append, List.cons_append]
    · cases hsend : send (bumpAttempts q) with
      | ok u =>
        rw [drainLoop_cons_ok send now q l1' store u hskip hsend] at h
        dsimp only at h
        rw [List.cons_append, drainLoop_cons_ok send now q (l1' ++ l2) store u hskip hsend,
          drainLoop_cons_ok send now q l1' store u hskip hsend, ih l2 _ h]
        dsimp only
        rw [List.cons_append, List.cons_append]
      | error msg =>
        by_cases hnet : isNetworkError msg = true
        · rw [drainLoop_cons_err_net send now q l1' store msg hskip hsend hnet] at h
          dsimp only at h
          exact absurd h (by simp)
        · have hnetf : isNetworkError msg = false := by simpa using hnet
          rw [drainLoop_cons_err_data send now q l1' store msg hskip hsend hnetf] at h
          dsimp only at h
          rw [List.cons_append, drainLoop_cons_err_data send now q (l1' ++ l2) store msg hskip hsend hnetf,
            drainLoop_cons_err_data send now q l1' store msg hskip hsend hnetf, ih l2 _ h]
          dsimp only
          rw [List.cons_append, List.cons_append]

/-! ## C1 -/

/-- C1 counterexample: with two pending items queued, delivery of item `a`
fails with the simulated timeout error (`'Server timeout'`) — a
transport-class failure per the claim — yet the pass does NOT stop: the
later item `b` is still attempted and synced, and the pass does not take
the fail-fast exit, because the source's fail-fast test matches only
messages containing `'Network'` or `'Failed to fetch'`. -/
theorem c1_counterexample :
    (processQueue sendTimeoutA 0 (mkState [itemA, itemB])).successItems = ["b"] ∧
    (processQueue sendTimeoutA 0 (mkState [itemA, itemB])).failedItems.map
      (fun e => e.2) = ["Server timeout"] ∧
    (processQueue sendTimeoutA 0 (mkState [itemA, itemB])).failFast = false ∧
    isNetworkError "Server timeout" = false := by
  decide

/-- C1 (corrected): the drain pass stops at a failing item exactly when the
error message satisfies `isNetworkError` (contains `'Network'` or
`'Failed to fetch'`, i.e. the simulated network error); the simulated
timeout (`'Server timeout'`) and the data-class errors do NOT stop the
pass.  When the loop reaches a delivery failure at `item` (after prefix
`pre` with no earlier fail-fast): on a network-class message the pass sets
the fail-fast flag, leaves every later item untouched in memory and in the
store (hence still pending), and records no further success or failure; on
any other message the pass continues into `rest`. -/
theorem c1_failfast_only_network_errors (send : QueueItem → Except String Unit)
    (now : Nat) (pre rest store : List QueueItem) (item : QueueItem)
    (msg : String)
    (hpre : (drainLoop send now pre store).failFast = false)
    (hlt : item.attempts < maxRetries)
    (hfail : send (bumpAttempts item) = Except.error msg) :
    (isNetworkError msg = true →
      (drainLoop send now (pre ++ item :: rest) store).failFast = true ∧
      (drainLoop send now (pre ++ item :: rest) store).items =
        (drainLoop send now pre store).items ++ (bumpAttempts item :: rest) ∧
      (drainLoop send now (pre ++ item :: rest) store).successItems =
        (drainLoop send now pre store).successItems ∧
      (drainLoop send now (pre ++ item :: rest) store).failedItems =
        (drainLoop send now pre store).failedItems ++ [(bumpAttempts item, msg)] ∧
      (∀ q ∈ rest, ¬ q.id = item.id → (∀ p2 ∈ pre, ¬ p2.id = q.id) →
        getItem (drainLoop send now (pre ++ item :: rest) store).store q.id =
          getItem store q.id)) ∧
    (isNetworkError msg = false →
      (drainLoop send now (pre ++ item :: rest) store).items =
        (drainLoop send now pre store).items ++ bumpAttempts item ::
          (drainLoop send now rest
            (updateStore (updateStore (drainLoop send now pre store).store item.id
              (attemptsPatch (bumpAttempts item).attempts)) item.id
              (errorPatch msg now))).items ∧
      (drainLoop send now (pre ++ item :: rest) store).failedItems =
        (drainLoop send now pre store).failedItems ++ (bumpAttempts item, msg) ::
          (drainLoop send now rest
            (updateStore (updateStore (drainLoop send now pre store).store item.id
              (attemptsPatch (bumpAttempts item).attempts)) item.id
              (errorPatch msg now))).failedItems) := by
  have happ := drainLoop_append send now pre (item :: rest) store hpre
  constructor
  · intro hnet
    have hstep := drainLoop_cons_err_net send now item rest
      (drainLoop send now pre store).store msg (Nat.not_le.mpr hlt) hfail hnet
    rw [happ, hstep]
    dsimp only
    refine ⟨rfl, rfl, by rw [List.append_nil], rfl, ?_⟩
    intro q hq hqid hqpre
    rw [getItem_updateStore_ne (fun hc => hqid hc.symm),
      getItem_updateStore_ne (fun hc => hqid hc.symm)]
    exact drainLoop_store_other send now pre store q.id hqpre
  · intro hnetf
    have hstep := drainLoop_cons_err_data send now item rest
      (drainLoop send now pre store).store msg (Nat.not_le.mpr hlt) hfail hnetf
    rw [happ, hstep]
    dsimp only
    exact ⟨rfl, rfl⟩

/-- Witness for the corrected C1 at a concrete input: a network-class
failure of item `a` fail-fasts the pass before item `b`. -/
theorem c1_failfast_only_network_errors_witness :
    (drainLoop sendNetworkA 0 ([] ++ itemA :: [itemB]) [itemA, itemB]).failFast
      = true :=
  ((c1_failfast_only_network_errors sendNetworkA 0 [] [itemB] [itemA, itemB]
    itemA "Network request failed" rfl (by decide) rfl).1 (by decide)).1

/-! ## C2 -/

/-- C2 counterexample: the item enqueued with `attempts = 0` is driven to
`attempts = 4 > maxRetries = 3` by four failing background-sync passes —
`updateRetryCount` (`src/unnamed/part_003`) increments `attempts` with no
`maxRetries` guard — and is left `pending` with `attempts > maxRetries`. -/
theorem c2_counterexample :
    (getItem c2store4 "a").map QueueItem.attempts = some 4 ∧
    (getItem c2store4 "a").map QueueItem.status = some "pending" ∧
    maxRetries = 3 := by
  decide

/-- C2 (corrected): `attempts` is monotonically non-decreasing, and a DRAIN
(`processQueue`) never leaves any item with `attempts > maxRetries`: it
only increments items whose `attempts` are strictly below `maxRetries`, so
if every stored and queued item starts with `attempts ≤ maxRetries`, every
item in the post-drain store and in-memory queue still satisfies
`attempts ≤ maxRetries`, and every surviving in-memory item descends from a
queued item of the same id with no smaller `attempts`.  The background-sync
path (`updateRetryCount`), however, increments unconditionally and can
exceed `maxRetries` (see the counterexample). -/
theorem c2_drain_attempts_bound (send : QueueItem → Except String Unit)
    (now : Nat) (st : SyncState)
    (hs : ∀ it ∈ st.store, it.attempts ≤ maxRetries)
    (hq : ∀ it ∈ st.syncQueue, it.attempts ≤ maxRetries) :
    (∀ it ∈ (processQueue send now st).state.store, it.attempts ≤ maxRetries) ∧
    (∀ it ∈ (processQueue send now st).state.syncQueue,
      ∃ q, q ∈ st.syncQueue ∧ q.id = it.id ∧ q.attempts ≤ it.attempts ∧
        it.attempts ≤ maxRetries) := by
  unfold processQueue
  split
  · dsimp only
    exact ⟨hs, fun it h => ⟨it, h, rfl, Nat.le_refl _, hq it h⟩⟩
  · dsimp only
    constructor
    · exact drainLoop_store_bound send now st.syncQueue st.store hs hq
    · intro it hmem
      exact drainLoop_items_bound send now st.syncQueue st.store hq it
        (List.mem_of_mem_filter hmem)

/-- Witness for the corrected C2 at a concrete input. -/
theorem c2_drain_attempts_bound_witness :
    itemB3.attempts ≤ maxRetries :=
  (c2_drain_attempts_bound sendTimeoutA 0 (mkState [itemA, itemB3])
    (by decide) (by decide)).1 itemB3 (by decide)

/-! ## C3 -/

/-- C3 counterexample: queue `[a (attempts 0), b (attempts 3)]`; delivery
of `a` fails with the network error, so the pass fail-fasts after `a` and
the exhausted item `b` — despite having `attempts ≥ maxRetries` at the
start of the pass — is NOT added to the failed-report list of this pass:
the report names only `a`. -/
theorem c3_counterexample :
    (processQueue sendNetworkA 0 (mkState [itemA, itemB3])).failedItems.map
      (fun e => e.1.id) = ["a"] ∧
    itemB3 ∈ (mkState [itemA, itemB3]).syncQueue ∧
    maxRetries ≤ itemB3.attempts ∧
    (processQueue sendNetworkA 0 (mkState [itemA, itemB3])).failFast = true := by
  decide

theorem mem_deleteItem_ne {store : List QueueItem} {it : QueueItem}
    {id : String} (h : it ∈ store) (hne : ¬ it.id = id) :
    it ∈ deleteItem store id := by
  unfold deleteItem
  apply List.mem_filter.mpr
  exact ⟨h, by simp [hne]⟩

theorem mem_foldl_deleteItem :
    ∀ (olds s : List QueueItem) (it2 : QueueItem),
      it2 ∈ s → (∀ r ∈ olds, ¬ r.id = it2.id) →
      it2 ∈ olds.foldl (fun acc r => deleteItem acc r.id) s := by
  intro olds
  induction olds with
  | nil =>
    intro s it2 h _
    simpa using h
  | cons r rs ih =>
    intro s it2 h hno
    simp only [List.foldl_cons]
    apply ih
    · exact mem_deleteItem_ne h (fun hc => hno r (List.mem_cons_self r rs) hc.symm)
    · exact fun q hq => hno q (List.mem_cons_of_mem _ hq)

theorem cleanup_keeps_pending (now days : Nat) (store2 : List QueueItem)
    (hnodup : (store2.map QueueItem.id).Nodup) :
    ∀ it2 ∈ store2, it2.status = "pending" →
      it2 ∈ (cleanupOldRecords now days store2).1 := by
  intro it2 hmem hpend
  unfold cleanupOldRecords
  dsimp only
  apply mem_foldl_deleteItem _ _ _ hmem
  intro r hr hc
  have hrmem : r ∈ store2 := List.mem_of_mem_filter hr
  have hrsync : r.status = "synced" := by
    have h2 := (List.mem_filter.mp hr).2
    simp at h2
    exact h2.2
  have hre : r = it2 := List.inj_on_of_nodup_map hnodup hrmem hmem hc
  rw [hre, hpend] at hrsync
  exact absurd hrsync (by decide)

/-- C3 (corrected): a pending item whose `attempts` are at least
`maxRetries` at the start of an executing drain pass is never attempted:
it survives the pass unchanged in the in-memory queue, its store record is
untouched, and it is never deleted (the automatic cleanup sweep removes
only `synced` records, so a pending item always survives it).  It is added
to the pass's failed-report list only if the pass does not exit through
the fail-fast break before reaching it — in a pass with no fail-fast exit
it always appears there; in a fail-fast pass it can be missing from the
report (see the counterexample). -/
theorem c3_exhausted_items_skipped (send : QueueItem → Except String Unit)
    (now : Nat) (st : SyncState) (item : QueueItem)
    (hnodup : (st.syncQueue.map QueueItem.id).Nodup)
    (hmem : item ∈ st.syncQueue)
    (hex : maxRetries ≤ item.attempts)
    (hflag : st.syncInProgress = false)
    (hon : st.online = true) :
    item ∈ (processQueue send now st).state.syncQueue ∧
    getItem (processQueue send now st).state.store item.id =
      getItem st.store item.id ∧
    ((processQueue send now st).failFast = false →
      (item, "Max retries exceeded") ∈ (processQueue send now st).failedItems) ∧
    (∀ (store2 : List QueueItem) (days : Nat),
      (store2.map QueueItem.id).Nodup →
      ∀ it2 ∈ store2, it2.status = "pending" →
        it2 ∈ (cleanupOldRecords now days store2).1) := by
  have hempty : st.syncQueue.isEmpty = false := by
    cases hq2 : st.syncQueue with
    | nil => rw [hq2] at hmem; simp at hmem
    | cons a l => rfl
  have hguard : (st.syncInProgress || st.syncQueue.isEmpty || !st.online) = false := by
    rw [hflag, hon, hempty]
    rfl
  unfold processQueue
  rw [if_neg (by simp [hguard])]
  dsimp only
  have hskipmem := drainLoop_exhausted_mem send now st.syncQueue st.store item hmem hex
  refine ⟨?_, ?_, hskipmem.2, fun s2 d hn => cleanup_keeps_pending now d s2 hn⟩
  · apply List.mem_filter.mpr
    refine ⟨hskipmem.1, ?_⟩
    have hns : ¬ item.id ∈ (drainLoop send now st.syncQueue st.store).successItems := by
      intro hc
      rcases drainLoop_success_src send now st.syncQueue st.store item.id hc with
        ⟨q, hq1, hq2, hq3⟩
      have : q = item := List.inj_on_of_nodup_map hnodup hq1 hmem hq2
      rw [this] at hq3
      exact absurd hex (Nat.not_le.mpr hq3)
    rw [contains_eq_false_of_not_mem hns]
    rfl
  · apply drainLoop_store_exhausted_id
    intro q hq hqid
    have : q = item := List.inj_on_of_nodup_map hnodup hq hmem hqid
    rw [this]
    exact hex

/-- Witness for the corrected C3 at a concrete input: a data-class failure
pass (no fail-fast), so the exhausted item `b` stays in the queue and
appears in the failed report. -/
theorem c3_exhausted_items_skipped_witness :
    itemB3 ∈ (processQueue sendTimeoutA 0 (mkState [itemA, itemB3])).state.syncQueue ∧
    (itemB3, "Max retries exceeded") ∈
      (processQueue sendTimeoutA 0 (mkState [itemA, itemB3])).failedItems := by
  have h := c3_exhausted_items_skipped sendTimeoutA 0 (mkState [itemA, itemB3])
    itemB3 (by decide) (by decide) (by decide) rfl rfl
  exact ⟨h.1, h.2.2.1 (by decide)⟩

/-! ## C4 -/

/-- C4 (confirmed): the single-flight guard of `processQueue`.  A drain
invoked while `syncInProgress` is set, while the queue is empty, or while
connectivity is absent returns immediately with the state untouched (no
queue item mutated, nothing reported, no retry scheduled); and a pass that
does execute ends with `syncInProgress = false`, so a later trigger can
run.  In the single-threaded embedding a pass is atomic, so the guard is
exactly what makes two drains unable to overlap. -/
theorem c4_single_flight_guard (send : QueueItem → Except String Unit)
    (now : Nat) (st : SyncState) :
    ((st.syncInProgress = true ∨ st.syncQueue = [] ∨ st.online = false) →
      processQueue send now st =
        { state := st, successItems := [], failedItems := [],
          failFast := false, notified := false, retryScheduled := false }) ∧
    (st.syncInProgress = false → st.syncQueue ≠ [] → st.online = true →
      (processQueue send now st).state.syncInProgress = false) := by
  constructor
  · intro h
    have hc : (st.syncInProgress || st.syncQueue.isEmpty || !st.online) = true := by
      rcases h with h | h | h
      · rw [h]
        rfl
      · rw [h]
        simp
      · rw [h]
        simp
    unfold processQueue
    rw [if_pos hc]
  · intro h1 h2 h3
    have hempty : st.syncQueue.isEmpty = false := by
      cases hq2 : st.syncQueue with
      | nil => exact absurd hq2 h2
      | cons a l => rfl
    have hc : (st.syncInProgress || st.syncQueue.isEmpty || !st.online) = false := by
      rw [h1, h3, hempty]
      rfl
    unfold processQueue
    rw [if_neg (by simp [hc])]

/-- Witness for C4 at concrete inputs: an in-flight drain is a no-op, and
an executed pass clears the flag. -/
theorem c4_single_flight_guard_witness :
    processQueue sendTimeoutA 0 ⟨[itemA], true, true, [itemA], none⟩ =
      { state := ⟨[itemA], true, true, [itemA], none⟩, successItems := [],
        failedItems := [], failFast := false, notified := false,
        retryScheduled := false } ∧
    (processQueue sendTimeoutA 0 (mkState [itemA])).state.syncInProgress = false :=
  ⟨(c4_single_flight_guard sendTimeoutA 0 ⟨[itemA], true, true, [itemA], none⟩).1
      (Or.inl rfl),
    (c4_single_flight_guard sendTimeoutA 0 (mkState [itemA])).2 rfl
      (by decide) rfl⟩

/-! ## C5 -/

/-- The partial-fields update used in the C5 scenarios. -/
def patch5 : ItemPatch := { attempts := some 1 }

/-- A two-item store used in the C5 witness. -/
def store5 : List QueueItem := [itemA, itemB]

/-- C5 counterexample: updating an id that is absent from the stored queue
does NOT fail with a NotFoundError — `updateQueueItem` resolves normally
(the `if (item)` guard plus the catch-all make a missing id a silent
no-op), returning success with the store unchanged. -/
theorem c5_counterexample :
    getItem ([] : List QueueItem) "missing" = none ∧
    updateQueueItem ([] : List QueueItem) "missing" patch5 = Except.ok [] :=
  ⟨by decide, rfl⟩

/-- C5 (corrected): for an id present in the store, `updateQueueItem`
merges exactly the given fields into the stored item (the record under
that id becomes `applyPatch` of the old record, and every other id is
untouched); for an absent id it does NOT fail — it resolves with the store
unchanged. -/
theorem c5_update_merges_or_noop (store : List QueueItem) (id : String)
    (p : ItemPatch) :
    (getItem store id = none → updateQueueItem store id p = Except.ok store) ∧
    (∀ it, getItem store id = some it →
      ∃ ns, updateQueueItem store id p = Except.ok ns ∧
        getItem ns id = some (applyPatch it p) ∧
        ∀ id2, ¬ id2 = id → getItem ns id2 = getItem store id2) := by
  constructor
  · intro h
    unfold updateQueueItem updateStore
    rw [h]
  · intro it h
    refine ⟨updateStore store id p, rfl, getItem_updateStore_self h, ?_⟩
    intro id2 hne
    exact getItem_updateStore_ne (fun hc => hne hc.symm)

/-- Witness for the corrected C5 at concrete inputs. -/
theorem c5_update_merges_or_noop_witness :
    updateQueueItem ([] : List QueueItem) "missing" patch5 = Except.ok [] ∧
    getItem (updateStore store5 "a" patch5) "a" = some (applyPatch itemA patch5) := by
  constructor
  · exact (c5_update_merges_or_noop [] "missing" patch5).1 rfl
  · obtain ⟨ns, h1, h2, h3⟩ :=
      (c5_update_merges_or_noop store5 "a" patch5).2 itemA rfl
    unfold updateQueueItem at h1
    injection h1 with h4
    rw [← h4] at h2
    exact h2

theorem saveQueueItem_fresh (store : List QueueItem) (item : QueueItem)
    (h : store.any (fun it => it.id == item.id) = false) :
    saveQueueItem false store item = store ++ [item] := by
  simp [saveQueueItem, addItem, h]

/-! ## C6 -/

/-- The item built by the C6 counterexample's enqueue. -/
def c6item : QueueItem :=
  { id := "x1", type := "t", payload := "p", timestamp := 5,
    status := "pending", attempts := 0, lastError := none,
    lastAttempt := none, syncedAt := none }

/-- C6 counterexample: with persistence failing (`storageFail = true`),
`addToQueue` does NOT propagate the storage error — it resolves with the
assigned id, the item sits in the in-memory queue, and the store is left
without the item (the mutation is silently non-durable). -/
theorem c6_counterexample :
    addToQueue true "x1" 5 [] [] "t" "p" =
      Except.ok { queue := [c6item], store := [], retId := "x1" } := rfl

/-- C6 (corrected): `addToQueue` always resolves with the assigned id of a
`status = "pending"`, `attempts = 0` item appended to the in-memory queue;
a storage failure during persistence is swallowed by `saveQueueItem`
(logged, store unchanged) rather than propagated; on successful
persistence of a fresh id the item is stored with `status = "pending"` and
`attempts = 0`. -/
theorem c6_enqueue_swallows_storage_errors (sf : Bool) (freshId : String)
    (now : Nat) (q store : List QueueItem) (tp pl : String) :
    ∃ out, addToQueue sf freshId now q store tp pl = Except.ok out ∧
      out.retId = freshId ∧
      out.queue = q ++ [⟨freshId, tp, pl, now, "pending", 0, none, none, none⟩] ∧
      (sf = true → out.store = store) ∧
      (sf = false → getItem store freshId = none →
        getItem out.store freshId =
          some ⟨freshId, tp, pl, now, "pending", 0, none, none, none⟩) := by
  refine ⟨_, rfl, rfl, rfl, ?_, ?_⟩
  · intro hsf
    subst hsf
    rfl
  · intro hsf hnone
    subst hsf
    have hany : store.any (fun it => it.id == freshId) = false := by
      rw [List.any_eq_false]
      intro x hx
      unfold getItem at hnone
      rw [List.find?_eq_none] at hnone
      exact hnone x hx
    dsimp only
    rw [saveQueueItem_fresh store
      { id := freshId
        type := tp
        payload := pl
        timestamp := now
        status := "pending"
        attempts := 0
        lastError := none
        lastAttempt := none
        syncedAt := none } hany]
    unfold getItem
    rw [List.find?_append]
    unfold getItem at hnone
    rw [hnone]
    rw [find?_cons_true (fun it : QueueItem => it.id == freshId)
      ({ id := freshId
         type := tp
         payload := pl
         timestamp := now
         status := "pending"
         attempts := 0
         lastError := none
         lastAttempt := none
         syncedAt := none } : QueueItem) [] (beq_self_eq_true freshId)]
    rfl

/-- Witness for the corrected C6 at a concrete input: a failing store still
yields a successful enqueue. -/
theorem c6_enqueue_swallows_storage_errors_witness :
    (addToQueue true "w1" 7 [] [itemA] "t" "p").isOk = true := by
  obtain ⟨out, h1, _⟩ :=
    c6_enqueue_swallows_storage_errors true "w1" 7 [] [itemA] "t" "p"
  rw [h1]
  rfl

/-! ## C7 -/

/-- C7 counterexample: a pass that exits through the fail-fast
transport-error break nevertheless schedules the backoff retry, because
the source schedules `scheduleRetry()` whenever `failedItems.length > 0`,
with no check of how the loop exited. -/
theorem c7_counterexample :
    (processQueue sendNetworkAll 0 (mkState [itemA])).failFast = true ∧
    (processQueue sendNetworkAll 0 (mkState [itemA])).retryScheduled = true := by
  decide

/-- C7 (corrected): the delayed retry (after the fixed `retryDelay = 5000`
ms backoff) is scheduled exactly when the completed pass recorded at least
one failure — regardless of whether the pass exited through the fail-fast
break; in particular every fail-fast pass schedules the retry (a fail-fast
exit always records the failing item first). -/
theorem c7_retry_scheduled_on_any_failure (send : QueueItem → Except String Unit)
    (now : Nat) (st : SyncState) :
    ((processQueue send now st).retryScheduled = true ↔
      (processQueue send now st).failedItems ≠ []) ∧
    ((processQueue send now st).failFast = true →
      (processQueue send now st).retryScheduled = true) ∧
    retryDelay = 5000 := by
  have hiff : (processQueue send now st).retryScheduled = true ↔
      (processQueue send now st).failedItems ≠ [] := by
    unfold processQueue
    split
    · dsimp only
      constructor
      · intro hc
        exact absurd hc (by simp)
      · intro hc
        exact absurd rfl hc
    · dsimp only
      simp [List.isEmpty_iff]
  refine ⟨hiff, ?_, rfl⟩
  intro hff
  apply hiff.mpr
  revert hff
  unfold processQueue
  split
  · dsimp only
    intro hc
    exact absurd hc (by simp)
  · dsimp only
    intro hff
    exact drainLoop_failFast_failedItems send now st.syncQueue st.store hff

/-- Witness for the corrected C7 at a concrete input. -/
theorem c7_retry_scheduled_on_any_failure_witness :
    (processQueue sendNetworkAll 0 (mkState [itemA])).retryScheduled = true :=
  (c7_retry_scheduled_on_any_failure sendNetworkAll 0 (mkState [itemA])).2.1
    (by decide)

/-! ## C8 -/

/-- C8 (confirmed): both cache-first strategies return the cached response
and issue no network fetch whenever a matching entry exists in their
designated partition — `imageStrategy` over `IMAGE_CACHE` and
`staticStrategy` over the static `CACHE_NAME` partition; the caches are
left untouched. -/
theorem c8_cache_first_no_network (net : Request → Except String Response)
    (cs : CacheState) (req : Request) (resp : Response) :
    (cacheMatch cs.imageCache req = some resp →
      imageStrategy net cs req =
        Except.ok { response := resp, caches := cs, networkCalled := false }) ∧
    (cacheMatch cs.staticCache req = some resp →
      staticStrategy net cs req =
        Except.ok { response := resp, caches := cs, networkCalled := false }) := by
  constructor
  · intro h
    unfold imageStrategy
    rw [h]
  · intro h
    unfold staticStrategy
    rw [h]

/-- Witness for C8 at concrete inputs: pre-populated image and static
entries are served with no fetch even though the network is down. -/
theorem c8_cache_first_no_network_witness :
    imageStrategy netDown csPrepopulated reqImg =
      Except.ok { response := respCached, caches := csPrepopulated, networkCalled := false } ∧
    staticStrategy netDown csPrepopulated reqCss =
      Except.ok { response := respCached, caches := csPrepopulated, networkCalled := false } :=
  ⟨(c8_cache_first_no_network netDown csPrepopulated reqImg respCached).1
      (by decide),
    (c8_cache_first_no_network netDown csPrepopulated reqCss respCached).2
      (by decide)⟩

/-! ## C9 -/

theorem apiStrategy_offline_eval (net : Request → Except String Response)
    (now : Nat) (cs : CacheState) (req : Request) (e : String)
    (hnet : net req = Except.error e)
    (hmiss : cacheMatch cs.apiCache req = none) :
    apiStrategy net now cs req =
      Except.ok
        { response :=
            { status := 200
              statusText := ""
              headers := [("Content-Type", "application/json"), ("X-Offline", "true")]
              body := offlineJsonBody now }
          caches := cs
          networkCalled := true } := by
  unfold apiStrategy
  rw [hnet]
  dsimp only
  rw [hmiss]

theorem apiFirstStrategy_offline_eval (net : Request → Except String Response)
    (cs : CacheState) (req : Request) (e : String)
    (hnet : net req = Except.error e)
    (hmiss : cacheMatch cs.apiCache req = none) :
    apiFirstStrategy net cs req =
      Except.ok
        { response :=
            { status := 200
              statusText := ""
              headers := [("Content-Type", "application/json"), ("X-Offline", "true")]
              body := Body.jsonObj
                [("status", JsonVal.str "offline"),
                 ("message", JsonVal.str "You are offline. Data may be outdated.")] }
          caches := cs
          networkCalled := true } := by
  unfold apiFirstStrategy
  rw [hnet]
  dsimp only
  rw [hmiss]

/-- C9 (confirmed): an API request whose network fetch fails while the API
cache partition has no matching entry is answered — not rejected — with a
synthesized response whose body is the JSON object containing
`status: "offline"` and whose headers carry `X-Offline: true`; this holds
for both service-worker variants (`apiStrategy` and `apiFirstStrategy`). -/
theorem c9_offline_api_fallback (net : Request → Except String Response)
    (now : Nat) (cs : CacheState) (req : Request) (e : String)
    (hnet : net req = Except.error e)
    (hmiss : cacheMatch cs.apiCache req = none) :
    (∃ sr, apiStrategy net now cs req = Except.ok sr ∧
      getHeader sr.response.headers "X-Offline" = some "true" ∧
      ∃ fields, sr.response.body = Body.jsonObj fields ∧
        ("status", JsonVal.str "offline") ∈ fields) ∧
    (∃ sr, apiFirstStrategy net cs req = Except.ok sr ∧
      getHeader sr.response.headers "X-Offline" = some "true" ∧
      ∃ fields, sr.response.body = Body.jsonObj fields ∧
        ("status", JsonVal.str "offline") ∈ fields) := by
  constructor
  · refine ⟨_, apiStrategy_offline_eval net now cs req e hnet hmiss, rfl, ?_⟩
    exact ⟨_, rfl, List.mem_cons_self _ _⟩
  · refine ⟨_, apiFirstStrategy_offline_eval net cs req e hnet hmiss, rfl, ?_⟩
    exact ⟨_, rfl, List.mem_cons_self _ _⟩

/-- Witness for C9 at a concrete input: network down, empty API cache. -/
theorem c9_offline_api_fallback_witness :
    (apiStrategy netDown 3 csEmpty reqApi).isOk = true ∧
    (apiFirstStrategy netDown csEmpty reqApi).isOk = true := by
  obtain ⟨⟨sr1, h1, _, _⟩, ⟨sr2, h2, _, _⟩⟩ :=
    c9_offline_api_fallback netDown 3 csEmpty reqApi "Failed to fetch" rfl rfl
  rw [h1, h2]
  exact ⟨rfl, rfl⟩

/-! ## C10 -/

/-- C10 (confirmed): the synthesized offline API response is built by
`new Response(body, { headers })` with no `init.status`, so it carries the
constructor's default HTTP status 200 — indistinguishable from a
successful server response by status code alone; the `X-Offline: true`
header (and the body's `status` field) are the only markers.  This holds
for both service-worker variants. -/
theorem c10_offline_response_status_200 (net : Request → Except String Response)
    (now : Nat) (cs : CacheState) (req : Request) (e : String)
    (hnet : net req = Except.error e)
    (hmiss : cacheMatch cs.apiCache req = none) :
    (∃ sr, apiStrategy net now cs req = Except.ok sr ∧
      sr.response.status = 200 ∧
      getHeader sr.response.headers "X-Offline" = some "true") ∧
    (∃ sr, apiFirstStrategy net cs req = Except.ok sr ∧
      sr.response.status = 200 ∧
      getHeader sr.response.headers "X-Offline" = some "true") := by
  constructor
  · exact ⟨_, apiStrategy_offline_eval net now cs req e hnet hmiss, rfl, rfl⟩
  · exact ⟨_, apiFirstStrategy_offline_eval net cs req e hnet hmiss, rfl, rfl⟩

/-- Witness for C10 at a concrete input. -/
theorem c10_offline_response_status_200_witness :
    (match apiStrategy netDown 4 csEmpty reqApi with
      | Except.ok sr => sr.response.status
      | Except.error _ => 0) = 200 := by
  obtain ⟨⟨sr1, h1, hs, _⟩, _⟩ :=
    c10_offline_response_status_200 netDown 4 csEmpty reqApi "Failed to fetch"
      rfl rfl
  rw [h1]
  exact hs
